import Mathlib

/-!
Shallow embedding of `neptune_optuna/impl/__init__.py` (the NeptuneCallback
integration between Optuna studies and a Neptune run namespace).

Python values that can appear as logged data are modelled by `PyObj`
(dictionaries keep insertion order, as Python dicts do); writes into the
Neptune run are modelled as a list of `Event`s; the run's key/value store is
an association list from paths to cells.  Machine integers are `Int`;
Python `%` on integers is floor-division remainder, i.e. `Int.fmod`, with an
explicit zero-divisor check (Python raises `ZeroDivisionError`), and `%`
applied to a non-integer right operand raises `TypeError`; both are modelled
with `Except`.
-/

/-- A Python dictionary key as it occurs in the projected data: either a
string or a non-string (represented by the integer case, which is what
Optuna's `intermediate_values` dict actually uses). -/
inductive PyKey where
  | kstr (s : String)
  | kint (n : Int)
deriving DecidableEq

/-- A Python object as it occurs in the data logged by the callback:
dictionaries (ordered association lists), lists, strings, integers, `None`.
Scalars that the claims never compute with (floats, datetimes, distribution
objects) are represented by whichever constructor the witness uses. -/
inductive PyObj where
  | dict (es : List (PyKey × PyObj))
  | list (xs : List PyObj)
  | pstr (s : String)
  | pint (n : Int)
  | pnone

/-- Models `str(k)` on a dictionary key. -/
def PyKey.toStr : PyKey → String
  | .kstr s => s
  | .kint n => toString n

/-- Models `repr(k)` on a dictionary key (used inside the repr of a container). -/
def pyKeyRepr : PyKey → String
  | .kstr s => "\x27" ++ s ++ "\x27"
  | .kint n => toString n

mutual
/-- Models `repr(o)` on a Python object (containers show their elements' reprs). -/
def pyRepr : PyObj → String
  | .dict es => "\x7b" ++ pyReprEntries es ++ "\x7d"
  | .list xs => "[" ++ pyReprList xs ++ "]"
  | .pstr s => "\x27" ++ s ++ "\x27"
  | .pint n => toString n
  | .pnone => "None"

def pyReprEntries : List (PyKey × PyObj) → String
  | [] => ""
  | [(k, v)] => pyKeyRepr k ++ ": " ++ pyRepr v
  | (k, v) :: rest => pyKeyRepr k ++ ": " ++ pyRepr v ++ ", " ++ pyReprEntries rest

def pyReprList : List PyObj → String
  | [] => ""
  | [x] => pyRepr x
  | x :: rest => pyRepr x ++ ", " ++ pyReprList rest
end

/-- Models `str(o)`: identity on strings, `repr` otherwise (sufficient for the
objects interpolated into the f-strings of the projection functions). -/
def pyStr : PyObj → String
  | .pstr s => s
  | o => pyRepr o

/-- Python truthiness of a logged object (`bool(o)`): containers are truthy
iff non-empty, integers iff non-zero, `None` is falsy. -/
def pyTruthy : PyObj → Bool
  | .dict es => !es.isEmpty
  | .list xs => !xs.isEmpty
  | .pstr s => !s.isEmpty
  | .pint n => n != 0
  | .pnone => false

/-- Models `d[k] = v` on a Python dict: update in place if the key is present
(keeping its position), otherwise append at the end. -/
def dictSet : List (PyKey × PyObj) → PyKey → PyObj → List (PyKey × PyObj)
  | [], k, v => [(k, v)]
  | (k', v') :: rest, k, v =>
    if k' = k then (k', v) :: rest else (k', v') :: dictSet rest k v

/-- Models `xs.append(x)` on a Python list value (identity on non-lists, where
Python would raise; never reached by the projection functions). -/
def pyListAppend : PyObj → PyObj → PyObj
  | .list xs, x => .list (xs ++ [x])
  | o, _ => o

/-- Models `d[k].append(x)`: append to the list stored under `k`.  The projection
only calls this on keys it initialised, so the missing-key case (a Python
`KeyError`) leaves the dict unchanged. -/
def dictAppendAt : List (PyKey × PyObj) → PyKey → PyObj → List (PyKey × PyObj)
  | [], _, _ => []
  | (k', v') :: rest, k, x =>
    if k' = k then (k', pyListAppend v' x) :: rest else (k', v') :: dictAppendAt rest k x

mutual
/-- Models `stringify_keys(o)`: rebuild a dict with `str(k)` keys, recursing into
dict values; any non-dict (including a list that may contain dicts) is
returned unchanged. -/
def stringify_keys : PyObj → PyObj
  | .dict es => .dict (stringifyEntries es)
  | o => o

def stringifyEntries : List (PyKey × PyObj) → List (PyKey × PyObj)
  | [] => []
  | (k, v) :: rest => (.kstr k.toStr, stringify_keys v) :: stringifyEntries rest
end

/-- Is this key a Python string? -/
def keyIsStr : PyKey → Bool
  | .kstr _ => true
  | .kint _ => false

mutual
/-- Spec-side predicate for claim C3 as stated: every dictionary key at
every nesting depth — including dictionaries nested inside lists — is a
string. -/
def allKeysDeepStr : PyObj → Bool
  | .dict es => allKeysDeepStrEntries es
  | .list xs => allKeysDeepStrList xs
  | _ => true

def allKeysDeepStrEntries : List (PyKey × PyObj) → Bool
  | [] => true
  | (k, v) :: rest => keyIsStr k && allKeysDeepStr v && allKeysDeepStrEntries rest

def allKeysDeepStrList : List PyObj → Bool
  | [] => true
  | x :: rest => allKeysDeepStr x && allKeysDeepStrList rest
end

mutual
/-- Every dictionary key reachable through dictionary nesting alone (not
looking inside lists) is a string — the guarantee `stringify_keys` actually
establishes. -/
def keysStrThroughDicts : PyObj → Bool
  | .dict es => keysStrThroughDictsEntries es
  | _ => true

def keysStrThroughDictsEntries : List (PyKey × PyObj) → Bool
  | [] => true
  | (k, v) :: rest => keyIsStr k && keysStrThroughDicts v && keysStrThroughDictsEntries rest
end

/-- The storage backend variants `log_study` dispatches over, carrying the
attribute each branch reads: `RedisStorage._url`, `_CachedStorage._backend.url`
(the cache wrapper unwrapped one level), `RDBStorage.url`. -/
inductive Storage where
  | inMemory
  | redis (url : String)
  | cached (backendUrl : String)
  | rdb (url : String)
  | unknownStorage
deriving DecidableEq

/-- An `optuna.trial.FrozenTrial` as read by the projection functions.
Field values the claims never compute with are arbitrary `PyObj`s. -/
structure Trial where
  trial_id : Nat
  value : PyObj
  values : PyObj
  params : PyObj
  distributions : PyObj
  intermediate_values : PyObj
  datetime_start : PyObj
  datetime_complete : PyObj
  duration : PyObj

/-- An `optuna.Study` as read by the callback.  `study_id_attr` is `none`
when the `_study_id` internal attribute is absent (older library versions),
in which case `log_study_details` swallows the `AttributeError`;
`stop_flag` is `study._stop_flag`; `is_multi_objective` is the result of
`study._is_multi_objective()`. -/
structure Study where
  study_name : String
  direction : PyObj
  directions : PyObj
  system_attrs : PyObj
  user_attrs : PyObj
  study_id_attr : Option Int
  storage : Storage
  trials : List Trial
  best_trials : List Trial
  best_value : PyObj
  best_params : PyObj
  stop_flag : Bool
  is_multi_objective : Bool

/-- A value written into the Neptune run: a string, an integer, a logged
Python object, `File.as_pickle(study)`, `File.as_html(vis.plot_<kind>(study))`,
or the internal storage handle reference. -/
inductive RVal where
  | vstr (s : String)
  | vint (n : Int)
  | vobj (o : PyObj)
  | vpickle (study : Study)
  | vhtml (plot : String) (study : Study)
  | vstorage (st : Storage)

/-- One write into the run namespace: `run[path] = v` or `run[path].log(v)`. -/
inductive Event where
  | assign (path : String) (v : RVal)
  | logAppend (path : String) (v : RVal)

/-- Did some `assign` event in the list target this path? -/
def writesPath (evs : List Event) (p : String) : Bool :=
  evs.any fun e =>
    match e with
    | .assign q _ => q = p
    | .logAppend _ _ => false

/-- The projection dict key interpolating the trial id between `trials/`
and the field name. -/
def trialKey (id : Nat) (field : String) : PyKey :=
  .kstr ("trials/" ++ toString id ++ "/" ++ field)

/-- The combined human-readable f-string interpolating the objective value
and the parameter assignment. -/
def valueParamsStr (v p : PyObj) : String :=
  "value: " ++ pyStr v ++ "| params: " ++ pyStr p

/-- The loop body of `log_all_trials`: three appends to the accumulating
lists, then eight per-trial keyed writes, in source order. -/
def logTrialStep (d : List (PyKey × PyObj)) (t : Trial) : List (PyKey × PyObj) :=
  let d := dictAppendAt d (.kstr "values") t.value
  let d := dictAppendAt d (.kstr "params") t.params
  let d := dictAppendAt d (.kstr "values|params") (.pstr (valueParamsStr t.value t.params))
  let d := dictSet d (trialKey t.trial_id "datetime_start") t.datetime_start
  let d := dictSet d (trialKey t.trial_id "datetime_complete") t.datetime_complete
  let d := dictSet d (trialKey t.trial_id "duration") t.duration
  let d := dictSet d (trialKey t.trial_id "distributions") t.distributions
  let d := dictSet d (trialKey t.trial_id "intermediate_values") t.intermediate_values
  let d := dictSet d (trialKey t.trial_id "params") t.params
  let d := dictSet d (trialKey t.trial_id "value") t.value
  let d := dictSet d (trialKey t.trial_id "values") t.values
  d

/-- Models `log_all_trials(trials)`: the accumulating dict starts with three empty
lists and is mutated once per trial. -/
def log_all_trials (trials : List Trial) : PyObj :=
  .dict (trials.foldl logTrialStep
    [(.kstr "values", .list []), (.kstr "params", .list []), (.kstr "values|params", .list [])])

/-- The loop body of `log_best_trials`: eight per-trial keyed writes. -/
def logBestTrialStep (d : List (PyKey × PyObj)) (t : Trial) : List (PyKey × PyObj) :=
  let d := dictSet d (trialKey t.trial_id "datetime_start") t.datetime_start
  let d := dictSet d (trialKey t.trial_id "datetime_complete") t.datetime_complete
  let d := dictSet d (trialKey t.trial_id "duration") t.duration
  let d := dictSet d (trialKey t.trial_id "distributions") t.distributions
  let d := dictSet d (trialKey t.trial_id "intermediate_values") t.intermediate_values
  let d := dictSet d (trialKey t.trial_id "params") t.params
  let d := dictSet d (trialKey t.trial_id "value") t.value
  let d := dictSet d (trialKey t.trial_id "values") t.values
  d

/-- Models `log_best_trials(study)`: aggregate `value`, `params` and the combined
string, then one block per trial in `study.best_trials`. -/
def log_best_trials (study : Study) : PyObj :=
  .dict (study.best_trials.foldl logBestTrialStep
    [(.kstr "value", study.best_value), (.kstr "params", study.best_params),
     (.kstr "value|params", .pstr (valueParamsStr study.best_value study.best_params))])

/-- Models `log_study_details(run, study)`: five unconditional study-level writes,
then `run['study/_study_id']` and `run['study/_storage']` inside a
`try/except AttributeError: pass` — when `_study_id` is absent neither is
written.  (`_storage` itself is present on every Study version this code
runs against; it is read unconditionally by `log_study`.) -/
def log_study_details (study : Study) : List Event :=
  [.assign "study/study_name" (.vstr study.study_name),
   .assign "study/direction" (.vobj study.direction),
   .assign "study/directions" (.vobj study.directions),
   .assign "study/system_attrs" (.vobj study.system_attrs),
   .assign "study/user_attrs" (.vobj study.user_attrs)] ++
  match study.study_id_attr with
  | some sid => [.assign "study/_study_id" (.vint sid), .assign "study/_storage" (.vstorage study.storage)]
  | none => []

/-- Models `log_study(run, study)`: `type(storage) is InMemoryStorage` picks the
pickle branch; otherwise the study name is written and the
`isinstance` chain (Redis, cache-wrapped, RDB, fallback) picks the
descriptor.  The whole body is `try/except AttributeError`, so no branch
raises; in particular the fallback writes the two "unknown" strings. -/
def log_study (study : Study) : List Event :=
  match study.storage with
  | .inMemory =>
    [.assign "study/study_name" (.vstr study.study_name),
     .assign "study/storage_type" (.vstr "InMemoryStorage"),
     .assign "study/study" (.vpickle study)]
  | st =>
    .assign "study/study_name" (.vstr study.study_name) ::
    match st with
    | .redis url =>
      [.assign "study/storage_type" (.vstr "RedisStorage"),
       .assign "study/storage_url" (.vstr url)]
    | .cached backendUrl =>
      [.assign "study/storage_type" (.vstr "RDBStorage"),
       .assign "study/storage_url" (.vstr backendUrl)]
    | .rdb url =>
      [.assign "study/storage_type" (.vstr "RDBStorage"),
       .assign "study/storage_url" (.vstr url)]
    | _ =>
      [.assign "study/storage_type" (.vstr "unknown storage type"),
       .assign "study/storage_url" (.vstr "unknown storage url")]

/-- An exception escaping the callback machinery: `ZeroDivisionError` from
`trial_id % 0`, `TypeError` from `trial_id % <non-int>`, or the
`NotImplementedError` raised for an unknown visualisation backend. -/
inductive CallErr where
  | zeroDivisionError
  | typeErrorMod
  | notImplemented (msg : String)
deriving DecidableEq

/-- Models `log_plots(run, study, backend, ...)`: backend dispatch first (anything
other than `'matplotlib'`/`'plotly'` raises `NotImplementedError` naming the
backend before any plot is produced).  The source then tests
`if vis.is_available:` — the function object itself, not its call — which is
always truthy, so the plot block always runs. -/
def log_plots (backend : String) (study : Study)
    (log_plot_contour log_plot_edf log_plot_parallel_coordinate log_plot_param_importances
     log_plot_pareto_front log_plot_slice log_plot_intermediate_values
     log_plot_optimization_history : Bool) : Except CallErr (List Event) :=
  if backend = "matplotlib" ∨ backend = "plotly" then
    .ok (
      (if log_plot_contour then
        [.assign "visualizations/plot_contour" (.vhtml "contour" study)] else []) ++
      (if log_plot_edf then
        [.assign "visualizations/plot_edf" (.vhtml "edf" study)] else []) ++
      (if log_plot_parallel_coordinate then
        [.assign "visualizations/plot_parallel_coordinate" (.vhtml "parallel_coordinate" study)] else []) ++
      (if log_plot_param_importances && decide (1 < study.trials.length) then
        [.assign "visualizations/plot_param_importances" (.vhtml "param_importances" study)] else []) ++
      (if log_plot_pareto_front && study.is_multi_objective && decide (backend = "plotly") then
        [.assign "visualizations/plot_pareto_front" (.vhtml "pareto_front" study)] else []) ++
      (if log_plot_slice then
        [.assign "visualizations/plot_slice" (.vhtml "slice" study)] else []) ++
      (if log_plot_intermediate_values && study.trials.any (fun t => pyTruthy t.intermediate_values) then
        [.assign "visualizations/plot_intermediate_values" (.vhtml "intermediate_values" study)] else []) ++
      (if log_plot_optimization_history then
        [.assign "visualizations/plot_optimization_history" (.vhtml "optimization_history" study)] else []))
  else
    .error (.notImplemented (backend ++ " visualisation backend is not implemented"))

/-- A value passed as an update-frequency argument, tagged with its Python
type: an `int`, a `str`, `None`, or a value of any other type. -/
inductive FreqArg where
  | int (n : Int)
  | str (s : String)
  | noneVal
  | otherType
deriving DecidableEq

/-- Models `verify_type(name, value, (int, str, type(None)))`: passes unless the
value has some other type. -/
def verify_type_int_str_none : FreqArg → Bool
  | .otherType => false
  | _ => true

/-- Python `==` between a frequency value and a string literal: string
comparison when the value is a `str`, `False` for every other type. -/
def freqEqStr (f : FreqArg) (s : String) : Bool :=
  match f with
  | .str t => t = s
  | _ => false

/-- Models `trial_id % freq` in Python: floor-division remainder for a non-zero
`int` divisor, `ZeroDivisionError` for `0`, `TypeError` for a `str`,
`None` or any other non-int. -/
def pyModFreq (a : Int) (f : FreqArg) : Except CallErr Int :=
  match f with
  | .int n => if n = 0 then .error .zeroDivisionError else .ok (Int.fmod a n)
  | _ => .error .typeErrorMod

/-- The state a `NeptuneCallback` holds after `__init__` (the run handle
itself carries no logic that the claims touch and is not stored here). -/
structure NeptuneCallback where
  vis_backend : String
  plots_update_freq : FreqArg
  study_update_freq : FreqArg
  log_plot_contour : Bool
  log_plot_edf : Bool
  log_plot_parallel_coordinate : Bool
  log_plot_param_importances : Bool
  log_plot_pareto_front : Bool
  log_plot_slice : Bool
  log_plot_intermediate_values : Bool
  log_plot_optimization_history : Bool

/-- Models `NeptuneCallback.__init__`.  `run_is_Run` and `base_namespace_is_str`
model the `verify_type` checks on the first two arguments; the frequency
arguments are checked against `(int, str, type(None))` — a pure type check.
The remaining arguments are typed `String`/`Bool` here, so their
`verify_type` checks always pass.  Returns `none` when `verify_type`
raises (construction fails). -/
def NeptuneCallback.init (run_is_Run base_namespace_is_str : Bool)
    (plots_update_freq study_update_freq : FreqArg) (vis_backend : String)
    (log_plot_contour log_plot_edf log_plot_parallel_coordinate log_plot_param_importances
     log_plot_pareto_front log_plot_slice log_plot_intermediate_values
     log_plot_optimization_history : Bool) : Option NeptuneCallback :=
  if run_is_Run && base_namespace_is_str
     && verify_type_int_str_none plots_update_freq
     && verify_type_int_str_none study_update_freq then
    some { vis_backend := vis_backend,
           plots_update_freq := plots_update_freq,
           study_update_freq := study_update_freq,
           log_plot_contour := log_plot_contour,
           log_plot_edf := log_plot_edf,
           log_plot_parallel_coordinate := log_plot_parallel_coordinate,
           log_plot_param_importances := log_plot_param_importances,
           log_plot_pareto_front := log_plot_pareto_front,
           log_plot_slice := log_plot_slice,
           log_plot_intermediate_values := log_plot_intermediate_values,
           log_plot_optimization_history := log_plot_optimization_history }
  else
    none

/-- Models `NeptuneCallback._should_log_plots(study, trial)`: `'never'` returns
`False`; `'last'` returns `True` iff `study._stop_flag`, else falls through
to `False`; any other frequency value reaches `trial._trial_id % freq`. -/
def NeptuneCallback.shouldLogPlots (cb : NeptuneCallback) (study : Study) (trial : Trial) :
    Except CallErr Bool :=
  if freqEqStr cb.plots_update_freq "never" then .ok false
  else if freqEqStr cb.plots_update_freq "last" then
    if study.stop_flag then .ok true else .ok false
  else
    match pyModFreq trial.trial_id cb.plots_update_freq with
    | .error e => .error e
    | .ok r => if r = 0 then .ok true else .ok false

/-- Models `NeptuneCallback._should_log_study(study, trial)`: same logic as
`_should_log_plots`, reading `study_update_freq` (the two are duplicated in
the source). -/
def NeptuneCallback.shouldLogStudy (cb : NeptuneCallback) (study : Study) (trial : Trial) :
    Except CallErr Bool :=
  if freqEqStr cb.study_update_freq "never" then .ok false
  else if freqEqStr cb.study_update_freq "last" then
    if study.stop_flag then .ok true else .ok false
  else
    match pyModFreq trial.trial_id cb.study_update_freq with
    | .error e => .error e
    | .ok r => if r = 0 then .ok true else .ok false

/-- Models `NeptuneCallback.__call__(study, trial)`: the three unconditional
writes, the details block gated on `trial._trial_id == 0`, then the two
policy-gated blocks.  Returns the events written before an exception (from
a policy evaluation or the plot backend dispatch) together with the
exception, if one escapes. -/
def NeptuneCallback.call (cb : NeptuneCallback) (study : Study) (trial : Trial) :
    List Event × Option CallErr :=
  let pre :=
    [Event.assign "trials" (.vobj (stringify_keys (log_all_trials [trial]))),
     Event.logAppend "study/distributions" (.vobj trial.distributions),
     Event.assign "best" (.vobj (stringify_keys (log_best_trials study)))] ++
    (if trial.trial_id = 0 then log_study_details study else [])
  match cb.shouldLogPlots study trial with
  | .error e => (pre, some e)
  | .ok shouldPlots =>
    match (if shouldPlots then
             log_plots cb.vis_backend study cb.log_plot_contour cb.log_plot_edf
               cb.log_plot_parallel_coordinate cb.log_plot_param_importances
               cb.log_plot_pareto_front cb.log_plot_slice cb.log_plot_intermediate_values
               cb.log_plot_optimization_history
           else .ok []) with
    | .error e => (pre, some e)
    | .ok plotEvs =>
      match cb.shouldLogStudy study trial with
      | .error e => (pre ++ plotEvs, some e)
      | .ok shouldStudy =>
        (pre ++ plotEvs ++ (if shouldStudy then log_study study else []), none)

/-- A cell of the run's key/value store: a plainly assigned value or the
series accumulated by `.log(...)` calls. -/
inductive StoreCell where
  | value (v : RVal)
  | series (vs : List RVal)

/-- Look a path up in the store. -/
def storeAssoc : List (String × StoreCell) → String → Option StoreCell
  | [], _ => none
  | (p', c) :: rest, p => if p' = p then some c else storeAssoc rest p

/-- Set a path in the store (update in place or append at the end). -/
def storeSet : List (String × StoreCell) → String → StoreCell → List (String × StoreCell)
  | [], p, c => [(p, c)]
  | (p', c') :: rest, p, c =>
    if p' = p then (p', c) :: rest else (p', c') :: storeSet rest p c

/-- Apply one write event to the store: `assign` replaces the cell,
`logAppend` extends (or starts) a series. -/
def applyEvent (st : List (String × StoreCell)) : Event → List (String × StoreCell)
  | .assign p v => storeSet st p (.value v)
  | .logAppend p v =>
    match storeAssoc st p with
    | some (.series vs) => storeSet st p (.series (vs ++ [v]))
    | _ => storeSet st p (.series [v])

/-- Apply a list of write events in order. -/
def applyEvents (st : List (String × StoreCell)) (evs : List Event) :
    List (String × StoreCell) :=
  evs.foldl applyEvent st

/-- Models `run[path].fetch() == s`: true iff the cell at the path holds exactly
that string. -/
def cellEqStr (c : Option StoreCell) (s : String) : Bool :=
  match c with
  | some (.value (.vstr t)) => t = s
  | _ => false

/-- The result of `load_study_from_run(run)`: either the pickled artifact is
downloaded and unpickled, or `optuna.load_study` is called with the fetched
name and storage URL. -/
inductive LoadedStudy where
  | fromPickle (artifact : Option StoreCell)
  | fromStorage (study_name storage_url : Option StoreCell)

/-- Models `load_study_from_run(run)`: branch on
`run['study/storage_type'].fetch() == 'InMemoryStorage'`. -/
def load_study_from_run (st : List (String × StoreCell)) : LoadedStudy :=
  if cellEqStr (storeAssoc st "study/storage_type") "InMemoryStorage" then
    .fromPickle (storeAssoc st "study/study")
  else
    .fromStorage (storeAssoc st "study/study_name") (storeAssoc st "study/storage_url")

/-- The URL string that `log_study` stores for each non-in-memory backend. -/
def storedStorageUrl : Storage → String
  | .inMemory => ""
  | .redis url => url
  | .cached backendUrl => backendUrl
  | .rdb url => url
  | .unknownStorage => "unknown storage url"

/-- A callback configuration as `__init__` builds it with the default
backend and all plots enabled, with the given frequencies. -/
def mkCallback (plots_freq study_freq : FreqArg) : NeptuneCallback :=
  { vis_backend := "plotly",
    plots_update_freq := plots_freq,
    study_update_freq := study_freq,
    log_plot_contour := true,
    log_plot_edf := true,
    log_plot_parallel_coordinate := true,
    log_plot_param_importances := true,
    log_plot_pareto_front := true,
    log_plot_slice := true,
    log_plot_intermediate_values := true,
    log_plot_optimization_history := true }

/-- A concrete completed trial used by the witnesses. -/
def trial0 : Trial :=
  { trial_id := 0,
    value := .pint 1,
    values := .list [.pint 1],
    params := .dict [(.kstr "x", .pint 2)],
    distributions := .dict [(.kstr "x", .pstr "IntDistribution")],
    intermediate_values := .dict [],
    datetime_start := .pstr "2021-01-01 00:00:00",
    datetime_complete := .pstr "2021-01-01 00:00:01",
    duration := .pstr "0:00:01" }

/-- A concrete single-objective in-memory study used by the witnesses. -/
def study0 : Study :=
  { study_name := "example-study",
    direction := .pstr "MINIMIZE",
    directions := .list [.pstr "MINIMIZE"],
    system_attrs := .dict [],
    user_attrs := .dict [],
    study_id_attr := some 0,
    storage := .inMemory,
    trials := [trial0],
    best_trials := [trial0],
    best_value := .pint 1,
    best_params := .dict [(.kstr "x", .pint 2)],
    stop_flag := false,
    is_multi_objective := false }

/-- A trial whose `params` dict has a non-string key (Python enforces no
key type), exercising the key-coercion claim. -/
def trialIntKey : Trial :=
  { trial0 with trial_id := 3, params := .dict [(.kint 1, .pint 2)] }

/-- A multi-objective study with two trials, used to exercise the plot
gating conditions. -/
def studyMulti : Study :=
  { study0 with
    directions := .list [.pstr "MINIMIZE", .pstr "MAXIMIZE"],
    trials := [trial0, { trial0 with trial_id := 1, intermediate_values := .dict [(.kint 0, .pint 5)] }],
    is_multi_objective := true }

/-- A callback configuration with every plot kind disabled (so that the
plot block contributes no events), frequencies `1`. -/
def cbNoPlots : NeptuneCallback :=
  { vis_backend := "plotly",
    plots_update_freq := .int 1,
    study_update_freq := .int 1,
    log_plot_contour := false,
    log_plot_edf := false,
    log_plot_parallel_coordinate := false,
    log_plot_param_importances := false,
    log_plot_pareto_front := false,
    log_plot_slice := false,
    log_plot_intermediate_values := false,
    log_plot_optimization_history := false }

theorem writesPath_append (xs ys : List Event) (p : String) :
    writesPath (xs ++ ys) p = (writesPath xs p || writesPath ys p) := by
  simp [writesPath, List.any_append]

theorem writesPath_if_single (c : Bool) (p q : String) (v : RVal) :
    writesPath (if c then [Event.assign p v] else []) q = (c && decide (p = q)) := by
  cases c <;> simp [writesPath]

mutual
theorem keysStrThroughDicts_stringify_aux :
    ∀ o : PyObj, keysStrThroughDicts (stringify_keys o) = true
  | .dict es => by
    simpa [stringify_keys, keysStrThroughDicts] using keysStrThroughDictsEntries_stringify_aux es
  | .list _ => rfl
  | .pstr _ => rfl
  | .pint _ => rfl
  | .pnone => rfl

theorem keysStrThroughDictsEntries_stringify_aux :
    ∀ es : List (PyKey × PyObj), keysStrThroughDictsEntries (stringifyEntries es) = true
  | [] => rfl
  | (k, v) :: rest => by
    simp [stringifyEntries, keysStrThroughDictsEntries, keyIsStr,
      keysStrThroughDicts_stringify_aux v, keysStrThroughDictsEntries_stringify_aux rest]
end

/-- Claim C1: with frequency `"never"` the evaluators always return false;
with `"last"` they return the study's stop flag; with a positive integer
frequency `N` they return true iff `trial._trial_id % N == 0` — for both
`_should_log_plots` and `_should_log_study`, on every study and trial. -/
theorem policy_evaluator_frequencies (cb : NeptuneCallback) (study : Study) (trial : Trial)
    (N : Nat) (hN : 1 ≤ N) :
    (cb.plots_update_freq = .str "never" → cb.shouldLogPlots study trial = .ok false) ∧
    (cb.plots_update_freq = .str "last" → cb.shouldLogPlots study trial = .ok study.stop_flag) ∧
    (cb.plots_update_freq = .int N →
      cb.shouldLogPlots study trial = .ok (decide (trial.trial_id % N = 0))) ∧
    (cb.study_update_freq = .str "never" → cb.shouldLogStudy study trial = .ok false) ∧
    (cb.study_update_freq = .str "last" → cb.shouldLogStudy study trial = .ok study.stop_flag) ∧
    (cb.study_update_freq = .int N →
      cb.shouldLogStudy study trial = .ok (decide (trial.trial_id % N = 0))) := by
  have hN0 : ((N : Int)) ≠ 0 := by
    simpa using Nat.one_le_iff_ne_zero.mp hN
  refine ⟨fun h => ?_, fun h => ?_, fun h => ?_, fun h => ?_, fun h => ?_, fun h => ?_⟩
  · simp [NeptuneCallback.shouldLogPlots, h, freqEqStr]
  · cases hf : study.stop_flag <;>
      simp [NeptuneCallback.shouldLogPlots, h, freqEqStr, hf]
  · have hmod : pyModFreq (trial.trial_id : Int) (FreqArg.int (N : Int)) =
        .ok ((trial.trial_id % N : Nat) : Int) := by
      simp [pyModFreq, hN0, ← Int.ofNat_fmod]
    rcases Nat.eq_zero_or_pos (trial.trial_id % N) with hz | hz
    · simp [NeptuneCallback.shouldLogPlots, h, freqEqStr, hmod, hz]
    · have hne : trial.trial_id % N ≠ 0 := Nat.pos_iff_ne_zero.mp hz
      have hne' : ((trial.trial_id % N : Nat) : Int) ≠ 0 := by exact_mod_cast hne
      have hnd : ¬ ((N : Int) ∣ (trial.trial_id : Int)) := by
        rw [Int.natCast_dvd_natCast]
        exact fun hd => hne (Nat.dvd_iff_mod_eq_zero.mp hd)
      simp [NeptuneCallback.shouldLogPlots, h, freqEqStr, hmod, hne, hne', hnd]
  · simp [NeptuneCallback.shouldLogStudy, h, freqEqStr]
  · cases hf : study.stop_flag <;>
      simp [NeptuneCallback.shouldLogStudy, h, freqEqStr, hf]
  · have hmod : pyModFreq (trial.trial_id : Int) (FreqArg.int (N : Int)) =
        .ok ((trial.trial_id % N : Nat) : Int) := by
      simp [pyModFreq, hN0, ← Int.ofNat_fmod]
    rcases Nat.eq_zero_or_pos (trial.trial_id % N) with hz | hz
    · simp [NeptuneCallback.shouldLogStudy, h, freqEqStr, hmod, hz]
    · have hne : trial.trial_id % N ≠ 0 := Nat.pos_iff_ne_zero.mp hz
      have hne' : ((trial.trial_id % N : Nat) : Int) ≠ 0 := by exact_mod_cast hne
      have hnd : ¬ ((N : Int) ∣ (trial.trial_id : Int)) := by
        rw [Int.natCast_dvd_natCast]
        exact fun hd => hne (Nat.dvd_iff_mod_eq_zero.mp hd)
      simp [NeptuneCallback.shouldLogStudy, h, freqEqStr, hmod, hne, hne', hnd]

theorem policy_evaluator_frequencies_witness :
    (mkCallback (.int 2) (.str "never")).shouldLogPlots study0 trial0
        = .ok (decide (trial0.trial_id % 2 = 0)) ∧
    (mkCallback (.int 2) (.str "never")).shouldLogStudy study0 trial0 = .ok false :=
  ⟨(policy_evaluator_frequencies (mkCallback (.int 2) (.str "never")) study0 trial0 2
      (by decide)).2.2.1 rfl,
   (policy_evaluator_frequencies (mkCallback (.int 2) (.str "never")) study0 trial0 2
      (by decide)).2.2.2.1 rfl⟩

/-- Claim C2: `log_study` writes exactly one storage descriptor per study:
the in-memory backend gets the study name, storage type `"InMemoryStorage"`
and a pickled snapshot; Redis gets `_url`; a cache-wrapped backend is
unwrapped one level and reported as `"RDBStorage"` with `_backend.url`; a
direct relational backend gets its `url`; any unrecognised backend gets the
two `"unknown ..."` strings (and, `log_study` being a total function here,
never raises on it). -/
theorem log_study_descriptor (study : Study) :
    log_study study =
      match study.storage with
      | .inMemory =>
        [.assign "study/study_name" (.vstr study.study_name),
         .assign "study/storage_type" (.vstr "InMemoryStorage"),
         .assign "study/study" (.vpickle study)]
      | .redis url =>
        [.assign "study/study_name" (.vstr study.study_name),
         .assign "study/storage_type" (.vstr "RedisStorage"),
         .assign "study/storage_url" (.vstr url)]
      | .cached backendUrl =>
        [.assign "study/study_name" (.vstr study.study_name),
         .assign "study/storage_type" (.vstr "RDBStorage"),
         .assign "study/storage_url" (.vstr backendUrl)]
      | .rdb url =>
        [.assign "study/study_name" (.vstr study.study_name),
         .assign "study/storage_type" (.vstr "RDBStorage"),
         .assign "study/storage_url" (.vstr url)]
      | .unknownStorage =>
        [.assign "study/study_name" (.vstr study.study_name),
         .assign "study/storage_type" (.vstr "unknown storage type"),
         .assign "study/storage_url" (.vstr "unknown storage url")] := by
  obtain ⟨name, dir, dirs, sa, ua, sid, storage, tr, bt, bv, bp, sf, mo⟩ := study
  cases storage <;> rfl

/-- Claim C3 (counterexample): on a trial whose `params` dict has a
non-string key, the projected mapping keeps that non-string key at nesting
depth 2 — inside the accumulated `params` *list* — because `stringify_keys`
does not recurse into lists; so not every key at every nesting depth of the
result is a string. -/
theorem stringify_keys_depth_counterexample :
    allKeysDeepStr (stringify_keys (log_all_trials [trialIntKey])) = false := by
  rfl

/-- Claim C3 (amended): `stringify_keys` converts every key reachable
through mapping-nesting alone to a string — for every input, so in
particular for every projected mapping; mappings nested inside lists (such
as the per-trial `params` dicts accumulated in the projection's `params`
list) are returned unchanged and may keep non-string keys. -/
theorem stringify_keys_dict_nesting (o : PyObj) :
    keysStrThroughDicts (stringify_keys o) = true :=
  keysStrThroughDicts_stringify_aux o

/-- Claim C4 (counterexample): constructing a `NeptuneCallback` with the
integer frequency `0` — which is not a positive integer, `"never"` or
`"last"` — succeeds, contradicting the claim that such values fail at
construction. -/
theorem init_accepts_zero_frequency :
    (NeptuneCallback.init true true (.int 0) (.int 1) "plotly"
        true true true true true true true true).isSome = true := by
  rfl

/-- Claim C4 (amended): the constructor validates only the Python *type* of
an update-frequency argument — `int`, `str` or `NoneType` pass, any other
type fails at construction.  In-domain garbage (the integer `0`, negative
integers, strings other than `"never"`/`"last"`, `None`) passes the
constructor; it fails only later, at policy evaluation (claim C10).  A
wrongly typed run handle likewise fails at construction. -/
theorem init_validates_only_types (n : Int) (s : String) (f : FreqArg) :
    (NeptuneCallback.init true true (.int n) (.int n) "plotly"
        true true true true true true true true).isSome = true ∧
    (NeptuneCallback.init true true (.str s) (.str s) "plotly"
        true true true true true true true true).isSome = true ∧
    (NeptuneCallback.init true true .noneVal .noneVal "plotly"
        true true true true true true true true).isSome = true ∧
    (NeptuneCallback.init true true .otherType f "plotly"
        true true true true true true true true).isSome = false ∧
    (NeptuneCallback.init true true f .otherType "plotly"
        true true true true true true true true).isSome = false ∧
    (NeptuneCallback.init false true f f "plotly"
        true true true true true true true true).isSome = false := by
  refine ⟨rfl, rfl, rfl, rfl, ?_, rfl⟩
  cases f <;> rfl

/-- Claim C5: `__call__` writes, in this fixed order: the single-trial
projection under `trials`, an append of the trial's distributions under
`study/distributions`, the best-trials projection under `best` (all three
unconditionally); then the study-level details iff `trial._trial_id == 0`
(`log_study_details` swallowing the absent internal attributes, second
conjunct); then the plot events iff the plot policy returned true; then the
study events iff the study policy returned true. -/
theorem callback_call_sequence (cb : NeptuneCallback) (study : Study) (trial : Trial)
    (bp bs : Bool) (plotEvs : List Event)
    (hp : cb.shouldLogPlots study trial = .ok bp)
    (hs : cb.shouldLogStudy study trial = .ok bs)
    (hpl : log_plots cb.vis_backend study cb.log_plot_contour cb.log_plot_edf
        cb.log_plot_parallel_coordinate cb.log_plot_param_importances cb.log_plot_pareto_front
        cb.log_plot_slice cb.log_plot_intermediate_values cb.log_plot_optimization_history
        = .ok plotEvs) :
    cb.call study trial =
      ([Event.assign "trials" (.vobj (stringify_keys (log_all_trials [trial]))),
        Event.logAppend "study/distributions" (.vobj trial.distributions),
        Event.assign "best" (.vobj (stringify_keys (log_best_trials study)))] ++
       (if trial.trial_id = 0 then log_study_details study else []) ++
       (if bp then plotEvs else []) ++
       (if bs then log_study study else []), none) ∧
    (study.study_id_attr = none →
      log_study_details study =
        [.assign "study/study_name" (.vstr study.study_name),
         .assign "study/direction" (.vobj study.direction),
         .assign "study/directions" (.vobj study.directions),
         .assign "study/system_attrs" (.vobj study.system_attrs),
         .assign "study/user_attrs" (.vobj study.user_attrs)]) := by
  constructor
  · unfold NeptuneCallback.call
    rw [hp]
    cases bp
    · rw [hs]
      simp [List.append_assoc]
    · rw [hpl, hs]
      simp [List.append_assoc]
  · intro h
    simp [log_study_details, h]

theorem callback_call_sequence_witness :
    cbNoPlots.call study0 trial0 =
      ([Event.assign "trials" (.vobj (stringify_keys (log_all_trials [trial0]))),
        Event.logAppend "study/distributions" (.vobj trial0.distributions),
        Event.assign "best" (.vobj (stringify_keys (log_best_trials study0)))] ++
       (if trial0.trial_id = 0 then log_study_details study0 else []) ++
       (if true then ([] : List Event) else []) ++
       (if true then log_study study0 else []), none) :=
  (callback_call_sequence cbNoPlots study0 trial0 true true [] rfl rfl rfl).1

/-- Claim C6: when the plot block runs (backend `"plotly"` or
`"matplotlib"`), each enabled plot kind is written, except that
parameter-importances additionally requires more than one trial,
Pareto-front additionally requires a multi-objective study *and* the
`"plotly"` backend (so it is skipped under `"matplotlib"` while the other
enabled plots still render), and intermediate-values additionally requires
some trial with a non-empty `intermediate_values` dict. -/
theorem log_plots_gating (b : String) (study : Study)
    (c e pc pi pf sl iv oh : Bool) (evs : List Event)
    (hb : b = "plotly" ∨ b = "matplotlib")
    (h : log_plots b study c e pc pi pf sl iv oh = .ok evs) :
    writesPath evs "visualizations/plot_contour" = c ∧
    writesPath evs "visualizations/plot_edf" = e ∧
    writesPath evs "visualizations/plot_parallel_coordinate" = pc ∧
    writesPath evs "visualizations/plot_param_importances"
      = (pi && decide (1 < study.trials.length)) ∧
    writesPath evs "visualizations/plot_pareto_front"
      = (pf && study.is_multi_objective && decide (b = "plotly")) ∧
    writesPath evs "visualizations/plot_slice" = sl ∧
    writesPath evs "visualizations/plot_intermediate_values"
      = (iv && study.trials.any fun t => pyTruthy t.intermediate_values) ∧
    writesPath evs "visualizations/plot_optimization_history" = oh := by
  rcases hb with hb | hb <;> subst hb <;>
  · unfold log_plots at h
    rw [if_pos (by simp)] at h
    injection h with h
    subst h
    refine ⟨?_, ?_, ?_, ?_, ?_, ?_, ?_, ?_⟩ <;>
    · simp only [writesPath_append, writesPath_if_single]
      simp

theorem log_plots_gating_witness :
    writesPath ([] : List Event) "visualizations/plot_pareto_front"
      = (true && studyMulti.is_multi_objective && decide (("matplotlib" : String) = "plotly")) :=
  (log_plots_gating "matplotlib" studyMulti false false false false true false false false []
    (Or.inr rfl) rfl).2.2.2.2.1

/-- Claim C7: calling `log_plots` with a backend other than `"plotly"` or
`"matplotlib"` raises `NotImplementedError` whose message names the
offending backend, and produces no plot events at all. -/
theorem log_plots_unknown_backend (b : String) (study : Study)
    (c e pc pi pf sl iv oh : Bool)
    (hb1 : ¬ b = "plotly") (hb2 : ¬ b = "matplotlib") :
    log_plots b study c e pc pi pf sl iv oh
      = .error (.notImplemented (b ++ " visualisation backend is not implemented")) := by
  simp [log_plots, hb1, hb2]

theorem log_plots_unknown_backend_witness :
    log_plots "bokeh" study0 true true true true true true true true
      = .error (.notImplemented ("bokeh" ++ " visualisation backend is not implemented")) :=
  log_plots_unknown_backend "bokeh" study0 true true true true true true true true
    (by decide) (by decide)

theorem storeSet_idem (st : List (String × StoreCell)) (p : String) (c : StoreCell) :
    storeSet (storeSet st p c) p c = storeSet st p c := by
  induction st with
  | nil => simp [storeSet]
  | cons hd tl ih =>
    obtain ⟨p', c'⟩ := hd
    by_cases h : p' = p <;> simp [storeSet, h, ih]

/-- Claim C8: after replaying the writes of `log_study` into the run store,
`load_study_from_run` takes the pickle-deserialisation branch exactly when
the stored `study/storage_type` is `"InMemoryStorage"` (equivalently, when
the backend is the in-memory one, second conjunct), receiving the pickled
snapshot `log_study` stored; for every other backend it reconnects with
exactly the `study/study_name` and `study/storage_url` that `log_study`
wrote. -/
theorem log_study_load_roundtrip (study : Study) :
    (load_study_from_run (applyEvents [] (log_study study)) =
      match study.storage with
      | .inMemory => .fromPickle (some (.value (.vpickle study)))
      | st => .fromStorage (some (.value (.vstr study.study_name)))
                           (some (.value (.vstr (storedStorageUrl st))))) ∧
    ((∃ a, load_study_from_run (applyEvents [] (log_study study)) = .fromPickle a) ↔
      study.storage = .inMemory) := by
  obtain ⟨name, dir, dirs, sa, ua, sid, storage, tr, bt, bv, bp, sf, mo⟩ := study
  cases storage
  case inMemory => exact ⟨rfl, fun _ => rfl, fun _ => ⟨_, rfl⟩⟩
  all_goals exact ⟨rfl, fun h => LoadedStudy.noConfusion h.choose_spec,
    fun h => absurd h (by simp)⟩

/-- Claim C9: the projection functions are pure: as Lean functions of the
trial list, the study and the object they are deterministic (two calls on
the same input are the same term, first three conjuncts), and re-writing
the same projected value at the same path leaves the run store exactly as
one write does — no internal state accumulates between calls. -/
theorem projection_functions_pure (trials : List Trial) (study : Study) (o : PyObj)
    (store : List (String × StoreCell)) :
    log_all_trials trials = log_all_trials trials ∧
    log_best_trials study = log_best_trials study ∧
    stringify_keys o = stringify_keys o ∧
    applyEvents
        (applyEvents store [.assign "trials" (.vobj (stringify_keys (log_all_trials trials)))])
        [.assign "trials" (.vobj (stringify_keys (log_all_trials trials)))] =
      applyEvents store [.assign "trials" (.vobj (stringify_keys (log_all_trials trials)))] :=
  ⟨rfl, rfl, rfl, by simp [applyEvents, applyEvent, storeSet_idem]⟩

/-- Claim C10: the integer frequency `0` passes the constructor's type
check, yet every policy evaluation then computes `trial._trial_id % 0` and
fails with `ZeroDivisionError`; likewise any string frequency other than
`"never"`/`"last"` passes construction and fails at the modulo with a
`TypeError` — for every study and trial. -/
theorem policy_evaluator_invalid_frequency (study : Study) (trial : Trial) (s : String)
    (h1 : ¬ s = "never") (h2 : ¬ s = "last") :
    NeptuneCallback.init true true (.int 0) (.int 0) "plotly"
        true true true true true true true true = some (mkCallback (.int 0) (.int 0)) ∧
    (mkCallback (.int 0) (.int 0)).shouldLogPlots study trial = .error .zeroDivisionError ∧
    (mkCallback (.int 0) (.int 0)).shouldLogStudy study trial = .error .zeroDivisionError ∧
    NeptuneCallback.init true true (.str s) (.str s) "plotly"
        true true true true true true true true = some (mkCallback (.str s) (.str s)) ∧
    (mkCallback (.str s) (.str s)).shouldLogPlots study trial = .error .typeErrorMod ∧
    (mkCallback (.str s) (.str s)).shouldLogStudy study trial = .error .typeErrorMod := by
  refine ⟨rfl, rfl, rfl, rfl, ?_, ?_⟩
  · simp [NeptuneCallback.shouldLogPlots, mkCallback, freqEqStr, pyModFreq, h1, h2]
  · simp [NeptuneCallback.shouldLogStudy, mkCallback, freqEqStr, pyModFreq, h1, h2]

theorem policy_evaluator_invalid_frequency_witness :
    (mkCallback (.int 0) (.int 0)).shouldLogPlots study0 trial0 = .error .zeroDivisionError ∧
    (mkCallback (.str "sometimes") (.str "sometimes")).shouldLogPlots study0 trial0
      = .error .typeErrorMod :=
  ⟨(policy_evaluator_invalid_frequency study0 trial0 "sometimes"
      (by decide) (by decide)).2.1,
   (policy_evaluator_invalid_frequency study0 trial0 "sometimes"
      (by decide) (by decide)).2.2.2.2.1⟩
